import Mathlib

/-!
Shallow embedding of `analyze_job_search.py` (Job_Search_Metrics_2).

The script loads a table of job-application records and computes descriptive
statistics (the "Metrics Engine" of the specification), charts and an HTML
dashboard.  Records are embedded as a structure mirroring the dataframe
columns; each metric-producing function of the script is translated into a
pure Lean function over `List Record`.  Percentages are rationals (`ℚ`);
pandas `NaN` results (mean of an empty series) are modelled as `Option.none`,
and a Python `ZeroDivisionError` is likewise modelled as `none` of the
function that would have raised it.  The pandas call
`df.resample('M', on='Date').size()` is embedded as `resample_M_size`:
a gap-free sequence of per-calendar-month counts from the earliest to the
latest month present in the frame (this is exactly the documented behaviour
of `resample` with the month-end frequency).
-/

/-- A calendar date, the result of `pd.to_datetime` on the `Date` column. -/
structure CalDate where
  year : Nat
  month : Nat
  day : Nat
deriving DecidableEq

/-- One row of the loaded dataframe: the columns of
`Resumes_Submissions_Submitted.csv` after `load_data`.  `localRemote` stands
for the column named `Local/Remote` (the slash is not a legal Lean name). -/
structure Record where
  Date : CalDate
  Company : String
  Title : String
  Quality : Int
  Interviews : String
  Recruiter : String
  localRemote : String
  Closed : String
deriving DecidableEq

/-- The month bucket a date falls into, linearised as `year * 12 + (month - 1)`
so that consecutive calendar months are consecutive numbers. -/
def monthIndex (r : Record) : Nat :=
  r.Date.year * 12 + (r.Date.month - 1)

/-- Linearisation of a full date, used to model `sort_values('Date')`. -/
def dateKey (d : CalDate) : Nat :=
  d.year * 10000 + d.month * 100 + d.day

/-- Date-ascending comparison of records, the sort key of `sort_values('Date')`. -/
def dateLe (a b : Record) : Prop :=
  dateKey a.Date ≤ dateKey b.Date

instance : DecidableRel dateLe := fun a b => Nat.decLe (dateKey a.Date) (dateKey b.Date)

/-- Mean of a pandas series: `NaN` (here `none`) when the series is empty,
otherwise the sum divided by the length. -/
def seriesMean (l : List ℚ) : Option ℚ :=
  if l = [] then none else some (l.sum / (l.length : ℚ))

/-- The metrics dictionary built by `generate_basic_metrics` (lines 77-97). -/
structure BasicMetrics where
  totalApplications : Nat
  uniqueCompanies : Nat
  applicationsWithInterviews : Nat
  applicationsWithRecruiters : Nat
  remotePositions : Nat
  localPositions : Nat
  closedPositions : Nat
  openPositions : Nat
  unknownStatusPositions : Nat
  averageQualityScore : Option ℚ
deriving DecidableEq

/-- `generate_basic_metrics`: each entry of the `metrics` dict.
`Unique Companies` is `df['Company'].nunique()`, the number of distinct
company names; `Average Quality Score` is `df['Quality'].mean()`. -/
def generate_basic_metrics (df : List Record) : BasicMetrics :=
  { totalApplications := df.length
    uniqueCompanies := ((df.map (fun r => r.Company)).dedup).length
    applicationsWithInterviews := (df.filter (fun r => r.Interviews == "Y")).length
    applicationsWithRecruiters := (df.filter (fun r => r.Recruiter == "Y")).length
    remotePositions := (df.filter (fun r => r.localRemote == "Remote")).length
    localPositions := (df.filter (fun r => r.localRemote == "Local")).length
    closedPositions := (df.filter (fun r => r.Closed == "Y")).length
    openPositions := (df.filter (fun r => r.Closed == "N")).length
    unknownStatusPositions := (df.filter (fun r => r.Closed == "I")).length
    averageQualityScore := seriesMean (df.map (fun r => (r.Quality : ℚ))) }

/-- `sorted(df['Quality'].unique())`: the distinct quality values present in
the records, in ascending order. -/
def sortedUniqueQualities (df : List Record) : List Int :=
  List.insertionSort (· ≤ ·) (df.map (fun r => r.Quality)).dedup

/-- `df.resample('M', on='Date').size()`: one count per calendar month from
the earliest to the latest month present in `df` (months with no records get
count 0); the empty list when `df` is empty. -/
def resample_M_size (df : List Record) : List (Nat × Nat) :=
  match (df.map monthIndex).min?, (df.map monthIndex).max? with
  | some lo, some hi =>
      (List.range (hi + 1 - lo)).map
        (fun i => (lo + i, (df.filter (fun r => monthIndex r == lo + i)).length))
  | _, _ => []

/-- `df[pred].resample('M', on='Date').size()`: the monthly-count series used
by `plot_applications_over_time` (line 104, predicate always true) and
`plot_interviews_per_month` (line 123, predicate `Interviews == 'Y'`). -/
def monthlyCounts (p : Record → Bool) (df : List Record) : List (Nat × Nat) :=
  resample_M_size (df.filter p)

/-- `series.reindex(all_months, fill_value=0)`: for each month of the new
axis, the series value at that month when present, otherwise 0. -/
def reindex_fill_zero (s : List (Nat × Nat)) (all_months : List Nat) : List (Nat × Nat) :=
  all_months.map (fun m => (m, ((s.lookup m).getD 0)))

/-- `sorted(list(set(a) | set(b)))` over month indices. -/
def sortedUnionNat (a b : List Nat) : List Nat :=
  List.insertionSort (· ≤ ·) (a ++ b).dedup

/-- The two aligned monthly series built by
`plot_high_quality_interviews_per_month` (lines 152-170): per-month interview
counts for Quality 1 and Quality 2, reindexed to the sorted union of the two
month axes with missing months filled with 0. -/
def plot_high_quality_interviews_per_month (df : List Record) :
    List (Nat × Nat) × List (Nat × Nat) :=
  let interviews_df := df.filter (fun r => r.Interviews == "Y")
  let q1_interviews := interviews_df.filter (fun r => r.Quality == 1)
  let q2_interviews := interviews_df.filter (fun r => r.Quality == 2)
  let monthly_q1 := resample_M_size q1_interviews
  let monthly_q2 := resample_M_size q2_interviews
  let all_months := sortedUnionNat (monthly_q1.map Prod.fst) (monthly_q2.map Prod.fst)
  (reindex_fill_zero monthly_q1 all_months, reindex_fill_zero monthly_q2 all_months)

/-- Interview rate by quality as computed for the console by
`analyze_interview_success` (lines 231-233):
`df.groupby('Quality')['Interviews'].apply(lambda x: (x == 'Y').mean() * 100)`.
`groupby` visits the distinct keys in ascending order and hands each group's
`Interviews` column to the lambda; the mean of a boolean series is the number
of `True` entries divided by the series length. -/
def interview_rate_by_quality_console (df : List Record) : List (Int × ℚ) :=
  (sortedUniqueQualities df).map (fun quality =>
    let grp := (df.filter (fun r => r.Quality == quality)).map (fun r => r.Interviews)
    (quality, ((grp.filter (fun x => x == "Y")).length : ℚ) / (grp.length : ℚ) * 100))

/-- Interview rate with a recruiter as printed by `analyze_interview_success`
(lines 239-241): the mean of the boolean series `Interviews == 'Y'` over the
`Recruiter == 'Y'` rows, times 100.  On an empty subset the pandas mean is
`NaN` (here `none`). -/
def recruiter_interview_rate_console (df : List Record) : Option ℚ :=
  (seriesMean ((df.filter (fun r => r.Recruiter == "Y")).map
      (fun r => if r.Interviews == "Y" then (1 : ℚ) else 0))).map (fun m => m * 100)

/-- Interview rate without a recruiter (lines 242-244), same shape. -/
def no_recruiter_interview_rate_console (df : List Record) : Option ℚ :=
  (seriesMean ((df.filter (fun r => r.Recruiter == "N")).map
      (fun r => if r.Interviews == "Y" then (1 : ℚ) else 0))).map (fun m => m * 100)

/-- The closed/open/unknown percentages printed by `analyze_closed_positions`
(lines 304-312).  The Python code divides by `total_positions` without a
guard, so on an empty record set `closed_positions/total_positions` raises
`ZeroDivisionError`; the raised error is modelled as `none`. -/
def analyze_closed_positions_pcts (df : List Record) : Option (ℚ × ℚ × ℚ) :=
  let total_positions := df.length
  let closed_positions := (df.filter (fun r => r.Closed == "Y")).length
  let open_positions := (df.filter (fun r => r.Closed == "N")).length
  let unknown_positions := (df.filter (fun r => r.Closed == "I")).length
  if total_positions = 0 then none
  else some ((closed_positions : ℚ) / (total_positions : ℚ) * 100,
             (open_positions : ℚ) / (total_positions : ℚ) * 100,
             (unknown_positions : ℚ) / (total_positions : ℚ) * 100)

/-- `interview_rate` of `generate_html_dashboard` (line 350):
`(interviews / total_apps * 100) if total_apps > 0 else 0`. -/
def interview_rate (df : List Record) : ℚ :=
  if 0 < df.length then
    ((df.filter (fun r => r.Interviews == "Y")).length : ℚ) / (df.length : ℚ) * 100
  else 0

/-- `closed_pct` of `generate_html_dashboard` (line 358). -/
def closed_pct (df : List Record) : ℚ :=
  if 0 < df.length then
    ((df.filter (fun r => r.Closed == "Y")).length : ℚ) / (df.length : ℚ) * 100
  else 0

/-- `open_pct` of `generate_html_dashboard` (line 359). -/
def open_pct (df : List Record) : ℚ :=
  if 0 < df.length then
    ((df.filter (fun r => r.Closed == "N")).length : ℚ) / (df.length : ℚ) * 100
  else 0

/-- `unknown_pct` of `generate_html_dashboard` (line 360). -/
def unknown_pct (df : List Record) : ℚ :=
  if 0 < df.length then
    ((df.filter (fun r => r.Closed == "I")).length : ℚ) / (df.length : ℚ) * 100
  else 0

/-- `interview_rates_by_quality` of `generate_html_dashboard` (lines 363-370):
loop over `sorted(df['Quality'].unique())`, keep a bucket only when
`quality_total > 0`, and record `quality_interviews / quality_total * 100`. -/
def interview_rates_by_quality (df : List Record) : List (Int × ℚ) :=
  (sortedUniqueQualities df).filterMap (fun quality =>
    let quality_df := df.filter (fun r => r.Quality == quality)
    let quality_interviews := (quality_df.filter (fun r => r.Interviews == "Y")).length
    let quality_total := quality_df.length
    if 0 < quality_total then
      some (quality, (quality_interviews : ℚ) / (quality_total : ℚ) * 100)
    else none)

/-- `recruiter_interview_rate` of `generate_html_dashboard` (lines 373-380):
initialised to 0 and only overwritten when the recruiter subset is non-empty. -/
def recruiter_interview_rate_dashboard (df : List Record) : ℚ :=
  let recruiter_df := df.filter (fun r => r.Recruiter == "Y")
  if 0 < recruiter_df.length then
    ((recruiter_df.filter (fun r => r.Interviews == "Y")).length : ℚ)
      / (recruiter_df.length : ℚ) * 100
  else 0

/-- `no_recruiter_interview_rate` of `generate_html_dashboard` (lines 374-383). -/
def no_recruiter_interview_rate_dashboard (df : List Record) : ℚ :=
  let no_recruiter_df := df.filter (fun r => r.Recruiter == "N")
  if 0 < no_recruiter_df.length then
    ((no_recruiter_df.filter (fun r => r.Interviews == "Y")).length : ℚ)
      / (no_recruiter_df.length : ℚ) * 100
  else 0

/-- One display row of the high-quality interview table: the columns selected
at line 33, with the `Date` column reformatted by `strftime('%m/%d/%Y')`. -/
structure DisplayRow where
  dateStr : String
  Company : String
  Title : String
  Quality : Int
  localRemote : String
  Closed : String
deriving DecidableEq

/-- Two-digit zero padding of `strftime`. -/
def pad2 (n : Nat) : String :=
  if n < 10 then "0" ++ toString n else toString n

/-- `strftime('%m/%d/%Y')`. -/
def strftime_mdY (d : CalDate) : String :=
  pad2 d.month ++ "/" ++ pad2 d.day ++ "/" ++ toString d.year

/-- `plot_high_quality_interview_table` (lines 20-34), threaded through the
record store explicitly: `df[mask].copy()` builds a fresh frame, the sort and
the `Date` reformatting act on that copy, and the cell matrix `table_data` is
read off the copy.  The first component is the record store as the function
leaves it; no statement of the Python body assigns into `df`, so it is the
input itself. -/
def plot_high_quality_interview_table (df : List Record) :
    List Record × List DisplayRow :=
  let high_quality_interviews :=
    df.filter (fun r => (r.Quality == 1 || r.Quality == 2) && r.Interviews == "Y")
  let sorted_rows := List.insertionSort dateLe high_quality_interviews
  let table_data := sorted_rows.map (fun r =>
    { dateStr := strftime_mdY r.Date, Company := r.Company, Title := r.Title,
      Quality := r.Quality, localRemote := r.localRemote, Closed := r.Closed : DisplayRow })
  (df, table_data)

/-- Every metric value the run produces: the console metrics, the analyses and
the dashboard numbers, as one bundle. -/
structure MetricsBundle where
  basic : BasicMetrics
  applicationsOverTime : List (Nat × Nat)
  interviewsPerMonth : List (Nat × Nat)
  highQualitySplit : List (Nat × Nat) × List (Nat × Nat)
  highQualityTable : List DisplayRow
  consoleInterviewRates : List (Int × ℚ)
  consoleRecruiterRate : Option ℚ
  consoleNoRecruiterRate : Option ℚ
  closurePcts : Option (ℚ × ℚ × ℚ)
  dashInterviewRate : ℚ
  dashClosedPct : ℚ
  dashOpenPct : ℚ
  dashUnknownPct : ℚ
  dashInterviewRatesByQuality : List (Int × ℚ)
  dashRecruiterRate : ℚ
  dashNoRecruiterRate : ℚ

/-- `main` (lines 802-822) with the record store threaded explicitly: the
store produced by the table step (the only operation that builds a modified
copy of record data) is passed along, and every metric of the run is
collected into a bundle.  Returns the final state of the record store
together with the bundle. -/
def runEngine (df : List Record) : List Record × MetricsBundle :=
  let tableStep := plot_high_quality_interview_table df
  let store := tableStep.fst
  (store,
    { basic := generate_basic_metrics store
      applicationsOverTime := monthlyCounts (fun _ => true) store
      interviewsPerMonth := monthlyCounts (fun r => r.Interviews == "Y") store
      highQualitySplit := plot_high_quality_interviews_per_month store
      highQualityTable := tableStep.snd
      consoleInterviewRates := interview_rate_by_quality_console store
      consoleRecruiterRate := recruiter_interview_rate_console store
      consoleNoRecruiterRate := no_recruiter_interview_rate_console store
      closurePcts := analyze_closed_positions_pcts store
      dashInterviewRate := interview_rate store
      dashClosedPct := closed_pct store
      dashOpenPct := open_pct store
      dashUnknownPct := unknown_pct store
      dashInterviewRatesByQuality := interview_rates_by_quality store
      dashRecruiterRate := recruiter_interview_rate_dashboard store
      dashNoRecruiterRate := no_recruiter_interview_rate_dashboard store })

/-- Sample record: a quality-1 interview in January 2024. -/
def recJanQ1 : Record :=
  { Date := ⟨2024, 1, 10⟩, Company := "A", Title := "Eng", Quality := 1,
    Interviews := "Y", Recruiter := "N", localRemote := "Remote", Closed := "N" }

/-- Sample record: a quality-2 interview in March 2024. -/
def recMarQ2 : Record :=
  { Date := ⟨2024, 3, 5⟩, Company := "B", Title := "Eng", Quality := 2,
    Interviews := "Y", Recruiter := "N", localRemote := "Local", Closed := "N" }

/-- Sample record: no recruiter involvement, no interview. -/
def recNoRecruiter : Record :=
  { Date := ⟨2024, 2, 1⟩, Company := "C", Title := "Dev", Quality := 3,
    Interviews := "N", Recruiter := "N", localRemote := "Local", Closed := "I" }

/-! ### Helper lemmas -/

/-- A `filterMap` whose function succeeds on every element of the list is a `map`. -/
theorem filterMap_eq_map_of_forall {α β : Type} (f : α → Option β) (g : α → β) :
    ∀ l : List α, (∀ a ∈ l, f a = some (g a)) → l.filterMap f = l.map g := by
  intro l
  induction l with
  | nil => intro _; rfl
  | cons a t ih =>
      intro h
      rw [List.filterMap_cons, h a (List.mem_cons_self a t), List.map_cons,
        ih (fun x hx => h x (List.mem_cons_of_mem a hx))]

/-- Membership in `sortedUniqueQualities` is membership among the records' qualities. -/
theorem mem_sortedUniqueQualities (df : List Record) (q : Int) :
    q ∈ sortedUniqueQualities df ↔ ∃ r ∈ df, r.Quality = q := by
  unfold sortedUniqueQualities
  rw [(List.perm_insertionSort (· ≤ ·) (df.map (fun r => r.Quality)).dedup).mem_iff,
    List.mem_dedup, List.mem_map]

/-- Every quality value listed by `sortedUniqueQualities` has a non-empty bucket. -/
theorem quality_bucket_nonempty (df : List Record) (q : Int)
    (h : q ∈ sortedUniqueQualities df) :
    0 < (df.filter (fun r => r.Quality == q)).length := by
  obtain ⟨r, hr, hq⟩ := (mem_sortedUniqueQualities df q).1 h
  exact List.length_pos_of_mem (List.mem_filter.2 ⟨hr, by simp [hq]⟩)

/-- The dashboard's quality loop never takes its `else` branch: it is the map
sending each present quality to its bucket's interview percentage. -/
theorem interview_rates_by_quality_eq_map (df : List Record) :
    interview_rates_by_quality df = (sortedUniqueQualities df).map (fun quality =>
      (quality,
       (((df.filter (fun r => r.Quality == quality)).filter
           (fun r => r.Interviews == "Y")).length : ℚ)
         / ((df.filter (fun r => r.Quality == quality)).length : ℚ) * 100)) := by
  unfold interview_rates_by_quality
  apply filterMap_eq_map_of_forall
  intro q hq
  simp only []
  rw [if_pos (quality_bucket_nonempty df q hq)]

/-- The keys of the dashboard's quality mapping are exactly the sorted distinct
qualities. -/
theorem interview_rates_by_quality_keys (df : List Record) :
    (interview_rates_by_quality df).map Prod.fst = sortedUniqueQualities df := by
  rw [interview_rates_by_quality_eq_map, List.map_map]
  exact List.map_id _

/-- Looking a month up in a contiguous month table. -/
theorem lookup_range_map (f : Nat → Nat) (n : Nat) :
    ∀ lo m : Nat,
      (((List.range n).map (fun i => (lo + i, f (lo + i)))).lookup m)
        = if lo ≤ m ∧ m < lo + n then some (f m) else none := by
  induction n with
  | zero =>
      intro lo m
      rw [if_neg (by omega)]
      rfl
  | succ n ih =>
      intro lo m
      rw [List.range_succ_eq_map, List.map_cons, List.map_map]
      have hcomp : ((fun i => (lo + i, f (lo + i))) ∘ Nat.succ)
          = (fun i => ((lo + 1) + i, f ((lo + 1) + i))) := by
        funext i
        have h : lo + Nat.succ i = (lo + 1) + i := by omega
        simp only [Function.comp_apply, h]
      rw [hcomp]
      simp only [Nat.add_zero]
      by_cases hm : m = lo
      · have hbeq : (m == lo) = true := beq_iff_eq.2 hm
        simp only [List.lookup_cons, hbeq]
        rw [if_pos (by omega), hm]
      · have hbeq : (m == lo) = false := beq_eq_false_iff_ne.2 hm
        simp only [List.lookup_cons, hbeq]
        rw [ih (lo + 1) m]
        by_cases h1 : (lo + 1) ≤ m ∧ m < (lo + 1) + n
        · rw [if_pos h1, if_pos (by omega)]
        · rw [if_neg h1, if_neg (by omega)]

/-- `resample_M_size` laid out explicitly when the frame is non-empty. -/
theorem resample_eq (df : List Record) (lo hi : Nat)
    (hlo : (df.map monthIndex).min? = some lo)
    (hhi : (df.map monthIndex).max? = some hi) :
    resample_M_size df = (List.range (hi + 1 - lo)).map
        (fun i => (lo + i, (df.filter (fun r => monthIndex r == lo + i)).length)) := by
  unfold resample_M_size
  rw [hlo, hhi]

/-- Every record's month bucket lies between the frame's extremes. -/
theorem monthIndex_bounds (df : List Record) (lo hi : Nat)
    (hlo : (df.map monthIndex).min? = some lo)
    (hhi : (df.map monthIndex).max? = some hi) :
    ∀ r ∈ df, lo ≤ monthIndex r ∧ monthIndex r ≤ hi := by
  intro r hr
  have hmem : monthIndex r ∈ df.map monthIndex := List.mem_map_of_mem monthIndex hr
  exact ⟨(List.min?_eq_some_iff'.1 hlo).2 _ hmem, (List.max?_eq_some_iff'.1 hhi).2 _ hmem⟩

/-- Looking a month up in a resampled series and defaulting to 0 yields the
true number of records in that month, for every month whatsoever. -/
theorem resample_lookup (df : List Record) (m : Nat) :
    ((resample_M_size df).lookup m).getD 0
      = (df.filter (fun r => monthIndex r == m)).length := by
  cases hlo : (df.map monthIndex).min? with
  | none =>
      have hdf : df = [] := List.map_eq_nil_iff.1 (List.min?_eq_none_iff.1 hlo)
      subst hdf
      rfl
  | some lo =>
      cases hhi : (df.map monthIndex).max? with
      | none =>
          have hdf : df.map monthIndex = [] := List.max?_eq_none_iff.1 hhi
          rw [hdf] at hlo
          simp at hlo
      | some hi =>
          have hb := monthIndex_bounds df lo hi hlo hhi
          rw [resample_eq df lo hi hlo hhi,
            lookup_range_map (fun mm => (df.filter (fun r => monthIndex r == mm)).length)
              (hi + 1 - lo) lo m]
          by_cases hrange : lo ≤ m ∧ m < lo + (hi + 1 - lo)
          · rw [if_pos hrange]
            rfl
          · rw [if_neg hrange]
            have hempty : df.filter (fun r => monthIndex r == m) = [] := by
              rw [List.filter_eq_nil_iff]
              intro r hr
              have hbr := hb r hr
              simp only [beq_iff_eq]
              omega
            rw [hempty]
            rfl

/-- Reindexing produces exactly the requested month axis. -/
theorem reindex_keys (s : List (Nat × Nat)) (ms : List Nat) :
    (reindex_fill_zero s ms).map Prod.fst = ms := by
  unfold reindex_fill_zero
  rw [List.map_map]
  exact List.map_id _

/-- A reindexed resampled series carries the true per-month record count at
every month of its axis (0 where the source frame has no records). -/
theorem reindex_resample_counts (src : List Record) (ms : List Nat) :
    ∀ pr ∈ reindex_fill_zero (resample_M_size src) ms,
      pr.snd = (src.filter (fun r => monthIndex r == pr.fst)).length := by
  intro pr hpr
  unfold reindex_fill_zero at hpr
  obtain ⟨m, _, rfl⟩ := List.mem_map.1 hpr
  exact resample_lookup src m

/-- The unioned month axis is sorted. -/
theorem sortedUnionNat_sorted (a b : List Nat) :
    List.Sorted (· ≤ ·) (sortedUnionNat a b) :=
  List.sorted_insertionSort _ _

/-- The unioned month axis has no duplicates. -/
theorem sortedUnionNat_nodup (a b : List Nat) : (sortedUnionNat a b).Nodup :=
  (List.perm_insertionSort _ _).symm.nodup (List.nodup_dedup _)

/-! ### Claim theorems -/

/-- C1 counterexample: on the empty record set the console position-closure
analysis does not complete.  `analyze_closed_positions` divides
`closed_positions / total_positions` without a guard, so with 0 records the
Python run raises `ZeroDivisionError` (modelled as `none`), refuting the
claim that every operation completes and every rate reports 0 or empty. -/
theorem analyze_closed_positions_raises_on_empty :
    analyze_closed_positions_pcts [] = none := rfl

/-- C1 (amended): on the empty record set every rate metric of the HTML
dashboard returns 0 or an empty mapping and the monthly series are empty, but
the console position-closure analysis (closed/open/unknown percentages of the
total) fails with a division by zero instead of completing. -/
theorem empty_record_set_metrics :
    interview_rate [] = 0 ∧ closed_pct [] = 0 ∧ open_pct [] = 0 ∧ unknown_pct [] = 0 ∧
    interview_rates_by_quality [] = [] ∧
    recruiter_interview_rate_dashboard [] = 0 ∧
    no_recruiter_interview_rate_dashboard [] = 0 ∧
    (generate_basic_metrics []).totalApplications = 0 ∧
    (∀ p : Record → Bool, monthlyCounts p [] = []) ∧
    analyze_closed_positions_pcts [] = none :=
  ⟨rfl, rfl, rfl, rfl, rfl, rfl, rfl, rfl, fun _ => rfl, rfl⟩

/-- C3 counterexample: a record set whose recruiter-involved subset is empty.
The console recruiter-impact rate (lines 239-241) is the mean of an empty
series times 100, which is `NaN` (`none`), not the claimed 0. -/
theorem console_recruiter_rate_nan :
    recruiter_interview_rate_console [recNoRecruiter] = none ∧
    recruiter_interview_rate_console [recNoRecruiter] ≠ some 0 := by
  decide

/-- C3 (amended): a ratio of the HTML dashboard with a zero denominator
reports as 0 (the recruiter-impact rates on an empty subset, and the overall
percentages on an empty record set); the console recruiter-impact rates
instead report the undefined empty-series mean `NaN` (`none`), not 0. -/
theorem zero_denominator_reports (df : List Record) :
    (df.filter (fun r => r.Recruiter == "Y") = [] →
      recruiter_interview_rate_dashboard df = 0 ∧
      recruiter_interview_rate_console df = none) ∧
    (df.filter (fun r => r.Recruiter == "N") = [] →
      no_recruiter_interview_rate_dashboard df = 0 ∧
      no_recruiter_interview_rate_console df = none) ∧
    (df = [] → interview_rate df = 0 ∧ closed_pct df = 0 ∧ open_pct df = 0 ∧
      unknown_pct df = 0) := by
  refine ⟨?_, ?_, ?_⟩
  · intro h
    constructor
    · simp [recruiter_interview_rate_dashboard, h]
    · simp [recruiter_interview_rate_console, h, seriesMean]
  · intro h
    constructor
    · simp [no_recruiter_interview_rate_dashboard, h]
    · simp [no_recruiter_interview_rate_console, h, seriesMean]
  · intro h
    subst h
    exact ⟨rfl, rfl, rfl, rfl⟩

/-- C3 witness: the amended statement applied to the empty record set. -/
theorem zero_denominator_reports_witness :
    recruiter_interview_rate_dashboard [] = 0 ∧
    recruiter_interview_rate_console [] = none :=
  (zero_denominator_reports []).1 rfl

/-- The three closure filters partition any record set whose `Closed` column
holds only the three legal markers. -/
theorem closed_filter_partition :
    ∀ df : List Record,
      (∀ r ∈ df, r.Closed = "Y" ∨ r.Closed = "N" ∨ r.Closed = "I") →
      (df.filter (fun r => r.Closed == "Y")).length
        + (df.filter (fun r => r.Closed == "N")).length
        + (df.filter (fun r => r.Closed == "I")).length = df.length := by
  intro df
  induction df with
  | nil => intro _; rfl
  | cons r t ih =>
      intro h
      have ht := ih (fun x hx => h x (List.mem_cons_of_mem r hx))
      rcases h r (List.mem_cons_self r t) with hY | hN | hI
      · simp only [List.filter_cons, hY, List.length_cons]
        simp only [show (("Y" : String) == "Y") = true from rfl,
          show (("Y" : String) == "N") = false from rfl,
          show (("Y" : String) == "I") = false from rfl,
          if_true, if_false, Bool.false_eq_true, List.length_cons]
        omega
      · simp only [List.filter_cons, hN, List.length_cons]
        simp only [show (("N" : String) == "Y") = false from rfl,
          show (("N" : String) == "N") = true from rfl,
          show (("N" : String) == "I") = false from rfl,
          if_true, if_false, Bool.false_eq_true, List.length_cons]
        omega
      · simp only [List.filter_cons, hI, List.length_cons]
        simp only [show (("I" : String) == "Y") = false from rfl,
          show (("I" : String) == "N") = false from rfl,
          show (("I" : String) == "I") = true from rfl,
          if_true, if_false, Bool.false_eq_true, List.length_cons]
        omega

/-- C5: for a non-empty record set whose closure status is one of the three
markers Closed/Open/Unknown ("Y"/"N"/"I"), the closed, open and unknown
counts of `generate_basic_metrics` sum to the total record count. -/
theorem basic_counts_partition (df : List Record) (_hne : df ≠ [])
    (henum : ∀ r ∈ df, r.Closed = "Y" ∨ r.Closed = "N" ∨ r.Closed = "I") :
    (generate_basic_metrics df).closedPositions
      + (generate_basic_metrics df).openPositions
      + (generate_basic_metrics df).unknownStatusPositions
      = (generate_basic_metrics df).totalApplications :=
  closed_filter_partition df henum

/-- C5 witness: the partition identity at a concrete one-record set. -/
theorem basic_counts_partition_witness :
    (generate_basic_metrics [recJanQ1]).closedPositions
      + (generate_basic_metrics [recJanQ1]).openPositions
      + (generate_basic_metrics [recJanQ1]).unknownStatusPositions
      = (generate_basic_metrics [recJanQ1]).totalApplications :=
  basic_counts_partition [recJanQ1] (by decide) (by decide)

/-- C7: for a non-empty record set the reported quality mean is the
unweighted arithmetic mean of the `Quality` column, and it depends only on
the `Quality` column: any record set with the same quality values in the same
order has the same mean, whatever its other fields hold. -/
theorem average_quality_is_unweighted_mean (df : List Record) (hne : df ≠ []) :
    (generate_basic_metrics df).averageQualityScore
        = some ((df.map (fun r => (r.Quality : ℚ))).sum / (df.length : ℚ)) ∧
    (∀ df2 : List Record, df2.map (fun r => r.Quality) = df.map (fun r => r.Quality) →
      (generate_basic_metrics df2).averageQualityScore
        = (generate_basic_metrics df).averageQualityScore) := by
  constructor
  · show seriesMean (df.map (fun r => (r.Quality : ℚ))) = _
    unfold seriesMean
    rw [if_neg (by simpa using hne), List.length_map]
  · intro df2 h2
    show seriesMean (df2.map (fun r => (r.Quality : ℚ)))
        = seriesMean (df.map (fun r => (r.Quality : ℚ)))
    have e1 : df2.map (fun r => (r.Quality : ℚ))
        = (df2.map (fun r => r.Quality)).map (fun q : Int => (q : ℚ)) := by
      rw [List.map_map]; rfl
    have e2 : df.map (fun r => (r.Quality : ℚ))
        = (df.map (fun r => r.Quality)).map (fun q : Int => (q : ℚ)) := by
      rw [List.map_map]; rfl
    rw [e1, e2, h2]

/-- C7 witness: the mean formula at a concrete one-record set. -/
theorem average_quality_is_unweighted_mean_witness :
    (generate_basic_metrics [recJanQ1]).averageQualityScore
      = some ((([recJanQ1].map (fun r => (r.Quality : ℚ))).sum)
          / (([recJanQ1].length : ℚ))) :=
  (average_quality_is_unweighted_mean [recJanQ1] (by decide)).1

/-- C8: the Metrics Engine never mutates the Record Store: the full run — and
in particular the high-quality interview table step, which sorts and
reformats dates on a copy of the filtered frame — returns the store exactly
as it was given. -/
theorem metrics_engine_preserves_store (df : List Record) :
    (runEngine df).fst = df ∧ (plot_high_quality_interview_table df).fst = df :=
  ⟨rfl, rfl⟩

/-- C9: determinism of the Metrics Engine: computing the metrics bundle a
second time, on the store the first run leaves behind, yields the identical
bundle of scalars, mappings and series. -/
theorem metrics_engine_deterministic (df : List Record) :
    (runEngine ((runEngine df).fst)).snd = (runEngine df).snd :=
  rfl

/-- C2 counterexample: one quality-1 interview in January 2024 (month index
24288) and one quality-2 interview in March 2024 (month index 24290).  The
shared month axis of `plot_high_quality_interviews_per_month` is
[24288, 24290]: February 2024 (month index 24289) lies strictly between the
overall earliest and latest months yet appears in neither series, so the
claimed gap-free axis does not hold. -/
theorem monthly_split_axis_has_gap :
    ((plot_high_quality_interviews_per_month [recJanQ1, recMarQ2]).fst.map Prod.fst
        = [24288, 24290]) ∧
    24289 ∉ (plot_high_quality_interviews_per_month [recJanQ1, recMarQ2]).fst.map
        Prod.fst := by
  decide

/-- `plot_high_quality_interviews_per_month` with its local bindings laid
out: both components are reindexings to the shared unioned month axis. -/
theorem plot_split_unfold (df : List Record) :
    plot_high_quality_interviews_per_month df
      = (reindex_fill_zero
           (resample_M_size ((df.filter (fun r => r.Interviews == "Y")).filter
              (fun r => r.Quality == 1)))
           (sortedUnionNat
             ((resample_M_size ((df.filter (fun r => r.Interviews == "Y")).filter
                (fun r => r.Quality == 1))).map Prod.fst)
             ((resample_M_size ((df.filter (fun r => r.Interviews == "Y")).filter
                (fun r => r.Quality == 2))).map Prod.fst)),
         reindex_fill_zero
           (resample_M_size ((df.filter (fun r => r.Interviews == "Y")).filter
              (fun r => r.Quality == 2)))
           (sortedUnionNat
             ((resample_M_size ((df.filter (fun r => r.Interviews == "Y")).filter
                (fun r => r.Quality == 1))).map Prod.fst)
             ((resample_M_size ((df.filter (fun r => r.Interviews == "Y")).filter
                (fun r => r.Quality == 2))).map Prod.fst))) := rfl

/-- Alignment and count correctness of a pair of resampled series reindexed
to the sorted union of their month axes. -/
theorem aligned_reindexed_pair (A B : List Record) :
    ((reindex_fill_zero (resample_M_size A)
        (sortedUnionNat ((resample_M_size A).map Prod.fst)
          ((resample_M_size B).map Prod.fst))).map Prod.fst
      = (reindex_fill_zero (resample_M_size B)
        (sortedUnionNat ((resample_M_size A).map Prod.fst)
          ((resample_M_size B).map Prod.fst))).map Prod.fst) ∧
    List.Sorted (· ≤ ·) ((reindex_fill_zero (resample_M_size A)
        (sortedUnionNat ((resample_M_size A).map Prod.fst)
          ((resample_M_size B).map Prod.fst))).map Prod.fst) ∧
    ((reindex_fill_zero (resample_M_size A)
        (sortedUnionNat ((resample_M_size A).map Prod.fst)
          ((resample_M_size B).map Prod.fst))).map Prod.fst).Nodup ∧
    (∀ pr ∈ reindex_fill_zero (resample_M_size A)
        (sortedUnionNat ((resample_M_size A).map Prod.fst)
          ((resample_M_size B).map Prod.fst)),
       pr.snd = (A.filter (fun r => monthIndex r == pr.fst)).length) ∧
    (∀ pr ∈ reindex_fill_zero (resample_M_size B)
        (sortedUnionNat ((resample_M_size A).map Prod.fst)
          ((resample_M_size B).map Prod.fst)),
       pr.snd = (B.filter (fun r => monthIndex r == pr.fst)).length) := by
  refine ⟨?_, ?_, ?_, reindex_resample_counts A _, reindex_resample_counts B _⟩
  · rw [reindex_keys, reindex_keys]
  · rw [reindex_keys]
    exact sortedUnionNat_sorted _ _
  · rw [reindex_keys]
    exact sortedUnionNat_nodup _ _

/-- C2 (amended): the two monthly series for quality 1 and quality 2 always
carry identical month axes, sorted and duplicate-free, and every entry of
either series counts exactly that tier's interview records in its month — in
particular a month in which one tier has no records carries count 0.  The
shared axis is, however, only the union of the two tiers' own individually
gap-free month ranges: as the counterexample shows, a calendar month lying
strictly between two disjoint tier ranges is absent, so the axis need not be
gap-free between the overall earliest and latest month. -/
theorem monthly_split_by_quality_aligned (df : List Record) :
    ((plot_high_quality_interviews_per_month df).fst.map Prod.fst
       = (plot_high_quality_interviews_per_month df).snd.map Prod.fst) ∧
    List.Sorted (· ≤ ·)
      ((plot_high_quality_interviews_per_month df).fst.map Prod.fst) ∧
    ((plot_high_quality_interviews_per_month df).fst.map Prod.fst).Nodup ∧
    (∀ pr ∈ (plot_high_quality_interviews_per_month df).fst,
       pr.snd = (((df.filter (fun r => r.Interviews == "Y")).filter
           (fun r => r.Quality == 1)).filter
             (fun r => monthIndex r == pr.fst)).length) ∧
    (∀ pr ∈ (plot_high_quality_interviews_per_month df).snd,
       pr.snd = (((df.filter (fun r => r.Interviews == "Y")).filter
           (fun r => r.Quality == 2)).filter
             (fun r => monthIndex r == pr.fst)).length) := by
  rw [plot_split_unfold df]
  exact aligned_reindexed_pair
    ((df.filter (fun r => r.Interviews == "Y")).filter (fun r => r.Quality == 1))
    ((df.filter (fun r => r.Interviews == "Y")).filter (fun r => r.Quality == 2))

/-- C2 amended witness: the count conjunct evaluated on the concrete
two-record set of the counterexample, at the January bucket of the
quality-1 series. -/
theorem monthly_split_by_quality_aligned_witness :
    (((24288 : Nat), (1 : Nat))).snd
      = ((([recJanQ1, recMarQ2].filter (fun r => r.Interviews == "Y")).filter
          (fun r => r.Quality == 1)).filter
            (fun r => monthIndex r == (((24288 : Nat), (1 : Nat))).fst)).length :=
  (monthly_split_by_quality_aligned [recJanQ1, recMarQ2]).2.2.2.1 (24288, 1) (by decide)

/-- C4: the dashboard's interview-rate-by-quality mapping lists exactly the
distinct quality values present in the records, in ascending order without
duplicates — so a quality value with zero records never appears — and every
percentage lies in [0, 100]; no `NaN` can arise because every listed bucket
is non-empty. -/
theorem interview_rates_by_quality_sound (df : List Record) :
    List.Sorted (· ≤ ·) ((interview_rates_by_quality df).map Prod.fst) ∧
    ((interview_rates_by_quality df).map Prod.fst).Nodup ∧
    (∀ q : Int,
      q ∈ (interview_rates_by_quality df).map Prod.fst ↔ ∃ r ∈ df, r.Quality = q) ∧
    (∀ pr ∈ interview_rates_by_quality df, 0 ≤ pr.snd ∧ pr.snd ≤ 100) := by
  refine ⟨?_, ?_, ?_, ?_⟩
  · rw [interview_rates_by_quality_keys]
    exact List.sorted_insertionSort _ _
  · rw [interview_rates_by_quality_keys]
    exact (List.perm_insertionSort _ _).symm.nodup (List.nodup_dedup _)
  · intro q
    rw [interview_rates_by_quality_keys]
    exact mem_sortedUniqueQualities df q
  · intro pr hpr
    rw [interview_rates_by_quality_eq_map] at hpr
    obtain ⟨q, hq, rfl⟩ := List.mem_map.1 hpr
    have hTpos : 0 < (df.filter (fun r => r.Quality == q)).length :=
      quality_bucket_nonempty df q hq
    have hIT : ((df.filter (fun r => r.Quality == q)).filter
          (fun r => r.Interviews == "Y")).length
        ≤ (df.filter (fun r => r.Quality == q)).length :=
      List.length_filter_le _ _
    have hTQ : (0 : ℚ) < ((df.filter (fun r => r.Quality == q)).length : ℚ) := by
      exact_mod_cast hTpos
    constructor
    · show (0 : ℚ) ≤ (((df.filter (fun r => r.Quality == q)).filter
          (fun r => r.Interviews == "Y")).length : ℚ)
        / ((df.filter (fun r => r.Quality == q)).length : ℚ) * 100
      positivity
    · show (((df.filter (fun r => r.Quality == q)).filter
          (fun r => r.Interviews == "Y")).length : ℚ)
        / ((df.filter (fun r => r.Quality == q)).length : ℚ) * 100 ≤ 100
      have hdiv : (((df.filter (fun r => r.Quality == q)).filter
            (fun r => r.Interviews == "Y")).length : ℚ)
          / ((df.filter (fun r => r.Quality == q)).length : ℚ) ≤ 1 := by
        rw [div_le_one hTQ]
        exact_mod_cast hIT
      calc (((df.filter (fun r => r.Quality == q)).filter
            (fun r => r.Interviews == "Y")).length : ℚ)
          / ((df.filter (fun r => r.Quality == q)).length : ℚ) * 100
          ≤ 1 * 100 := mul_le_mul_of_nonneg_right hdiv (by norm_num)
        _ = 100 := by norm_num

/-- C4 witness: the bounds conjunct at a concrete record set, at the
quality-1 bucket, whose rate is written as its defining ratio. -/
theorem interview_rates_by_quality_sound_witness :
    0 ≤ (((1 : Int),
      ((([recJanQ1].filter (fun r => r.Quality == 1)).filter
          (fun r => r.Interviews == "Y")).length : ℚ)
        / (([recJanQ1].filter (fun r => r.Quality == 1)).length : ℚ) * 100)).snd ∧
    (((1 : Int),
      ((([recJanQ1].filter (fun r => r.Quality == 1)).filter
          (fun r => r.Interviews == "Y")).length : ℚ)
        / (([recJanQ1].filter (fun r => r.Quality == 1)).length : ℚ) * 100)).snd ≤ 100 :=
  (interview_rates_by_quality_sound [recJanQ1]).2.2.2
    (1,
      ((([recJanQ1].filter (fun r => r.Quality == 1)).filter
          (fun r => r.Interviews == "Y")).length : ℚ)
        / (([recJanQ1].filter (fun r => r.Quality == 1)).length : ℚ) * 100)
    (by
      rw [interview_rates_by_quality_eq_map]
      have h1 : sortedUniqueQualities [recJanQ1] = [1] := by decide
      rw [h1, List.map_cons, List.map_nil]
      exact List.mem_singleton.2 rfl)

/-- C6: when the filtered subset is non-empty (the hypotheses exhibit its
earliest and latest month), `monthlyCounts` returns exactly one bucket per
calendar month of the contiguous range from earliest to latest — so no
months outside that range occur — each bucket counting the matching records
of its month; and when all matching records fall in a single calendar month
the result is exactly one bucket counting them all. -/
theorem monthly_counts_buckets (p : Record → Bool) (df : List Record) (lo hi : Nat)
    (hlo : ((df.filter p).map monthIndex).min? = some lo)
    (hhi : ((df.filter p).map monthIndex).max? = some hi) :
    ((monthlyCounts p df).map Prod.fst
        = (List.range (hi + 1 - lo)).map (fun i => lo + i)) ∧
    (∀ pr ∈ monthlyCounts p df,
        lo ≤ pr.fst ∧ pr.fst ≤ hi ∧
        pr.snd = ((df.filter p).filter (fun r => monthIndex r == pr.fst)).length) ∧
    (∀ m0 : Nat, (∀ r ∈ df.filter p, monthIndex r = m0) →
        monthlyCounts p df = [(m0, (df.filter p).length)]) := by
  have hle : lo ≤ hi :=
    (List.max?_eq_some_iff'.1 hhi).2 lo (List.min?_eq_some_iff'.1 hlo).1
  refine ⟨?_, ?_, ?_⟩
  · unfold monthlyCounts
    rw [resample_eq _ lo hi hlo hhi, List.map_map]
    rfl
  · intro pr hpr
    unfold monthlyCounts at hpr
    rw [resample_eq _ lo hi hlo hhi] at hpr
    obtain ⟨i, hi2, rfl⟩ := List.mem_map.1 hpr
    have hiR : i < hi + 1 - lo := List.mem_range.1 hi2
    refine ⟨?_, ?_, rfl⟩
    · show lo ≤ lo + i
      omega
    · show lo + i ≤ hi
      omega
  · intro m0 hall
    have hlom : lo = m0 := by
      obtain ⟨hmem, -⟩ := List.min?_eq_some_iff'.1 hlo
      obtain ⟨r, hr, hrm⟩ := List.mem_map.1 hmem
      rw [← hrm]
      exact hall r hr
    have hhim : hi = m0 := by
      obtain ⟨hmem, -⟩ := List.max?_eq_some_iff'.1 hhi
      obtain ⟨r, hr, hrm⟩ := List.mem_map.1 hmem
      rw [← hrm]
      exact hall r hr
    have hfil : (df.filter p).filter (fun r => monthIndex r == m0) = df.filter p := by
      rw [List.filter_eq_self]
      intro r hr
      simp [hall r hr]
    unfold monthlyCounts
    rw [resample_eq _ lo hi hlo hhi, hlom, hhim]
    have h1 : m0 + 1 - m0 = 1 := by omega
    have hr1 : List.range 1 = [0] := rfl
    rw [h1, hr1, List.map_cons, List.map_nil]
    simp only [Nat.add_zero]
    rw [hfil]

/-- C6 witness: a concrete one-record subset, all records in January 2024,
collapses to the single bucket (24288, 1). -/
theorem monthly_counts_buckets_witness :
    monthlyCounts (fun r => r.Interviews == "Y") [recJanQ1]
      = [(24288, ([recJanQ1].filter (fun r => r.Interviews == "Y")).length)] :=
  (monthly_counts_buckets (fun r => r.Interviews == "Y") [recJanQ1] 24288 24288
      (by decide) (by decide)).2.2 24288 (by decide)

/-- C10: the console implementation of interview rate by quality (pandas
groupby with a boolean mean) and the HTML dashboard implementation (a loop
over the sorted distinct qualities with an emptiness guard) produce the same
quality-to-percentage mapping on every record set. -/
theorem console_dashboard_interview_rates_agree (df : List Record) :
    interview_rate_by_quality_console df = interview_rates_by_quality df := by
  rw [interview_rates_by_quality_eq_map]
  unfold interview_rate_by_quality_console
  apply List.map_congr_left
  intro q _
  have hlen : (((df.filter (fun r => r.Quality == q)).map (fun r => r.Interviews)).filter
      (fun x => x == "Y")).length
      = ((df.filter (fun r => r.Quality == q)).filter
          (fun r => r.Interviews == "Y")).length := by
    rw [List.filter_map, List.length_map]
    rfl
  have hlen2 : ((df.filter (fun r => r.Quality == q)).map (fun r => r.Interviews)).length
      = (df.filter (fun r => r.Quality == q)).length := List.length_map _ _
  show (q, ((((df.filter (fun r => r.Quality == q)).map (fun r => r.Interviews)).filter
        (fun x => x == "Y")).length : ℚ)
      / ((((df.filter (fun r => r.Quality == q)).map (fun r => r.Interviews)).length : ℚ))
      * 100)
    = (q, (((df.filter (fun r => r.Quality == q)).filter
        (fun r => r.Interviews == "Y")).length : ℚ)
      / (((df.filter (fun r => r.Quality == q)).length : ℚ)) * 100)
  rw [hlen, hlen2]
